import Mathlib

/-
Shallow embedding of the computational core of the statistics course-ware
repository, and proofs about it.

Embedded source functions:
  * `prob.py`      — `create_dataset`, `calculate_probabilities`
  * `axiom.py`     — `generate_random_drillholes`
  * `tutorial7.py` — the `medium_membership` triangular fuzzy function and
                     the Beta-Bernoulli updating step of the Bayesian script
  * `tutorial8.py` — `classify_elevation` (max-membership hard classification)

Python floats are modelled by `ℚ` (every computation proved here involves
only small exact divisions), pandas DataFrames by explicit column lists or
row lists, and `np.random.shuffle` outcomes by an arbitrary permutation
parameter constrained in the theorems.
-/

/-- A row of the stratigraphic-layer DataFrame built by `create_dataset`
(`prob.py`).  The columns are `LayerID`, `FossilA`, `FossilB`, `Sandstone`,
all string-valued (`"Yes"`/`"No"` flags).  `hasA`/`hasB` model the `HasA`
and `HasB` columns that `calculate_probabilities` assigns into the frame in
place; `none` means the column is absent. -/
structure Row where
  layerID : String
  fossilA : String
  fossilB : String
  sandstone : String
  hasA : Option Bool := none
  hasB : Option Bool := none
deriving DecidableEq

/-- The probability mapping returned by `calculate_probabilities`
(`prob.py`): the dict with keys P(A), P(B), P(A∩B), P(A∪B), P(B|A). -/
structure ProbResult where
  pA : ℚ
  pB : ℚ
  pAB : ℚ
  pAorB : ℚ
  pBgA : ℚ
deriving DecidableEq

/-- Row construction of `create_dataset` (`prob.py` lines 30–90), after the
validation block.  `indices` is the shuffled `np.arange(num_layers)` of
step 2 and `all_indices` the independently shuffled array of step 5.  The
imperative loops start from all-`False` arrays and set `fossilA[idx] = True`
exactly at the positions of the overlap slice `indices[:overlap_AB]` and the
A-only slice; hence row `i` carries `FossilA = "Yes"` iff `i` lies in one of
those slices, and likewise for `FossilB` and `Sandstone`. -/
def create_dataset_rows (num_layers count_A count_B overlap_AB count_sandstone : ℕ)
    (indices all_indices : List ℕ) : List Row :=
  let overlap_indices := indices.take overlap_AB
  let remaining_indices := indices.drop overlap_AB
  let needed_A_only := count_A - overlap_AB
  let A_only_indices := if needed_A_only > 0 then remaining_indices.take needed_A_only else []
  let remaining_indices :=
    if needed_A_only > 0 then remaining_indices.drop needed_A_only else remaining_indices
  let needed_B_only := count_B - overlap_AB
  let B_only_indices := if needed_B_only > 0 then remaining_indices.take needed_B_only else []
  let sandstone_selected := all_indices.take count_sandstone
  (List.range num_layers).map (fun i =>
    { layerID := toString (i + 1),
      fossilA := if i ∈ overlap_indices ∨ i ∈ A_only_indices then "Yes" else "No",
      fossilB := if i ∈ overlap_indices ∨ i ∈ B_only_indices then "Yes" else "No",
      sandstone := if i ∈ sandstone_selected then "Yes" else "No" })

/-- Embedding of `create_dataset` (`prob.py` lines 6–90).  The two `raise ValueError`
validation branches become `Except.error`; the happy path builds the rows of
`create_dataset_rows`. -/
def create_dataset (num_layers count_A count_B overlap_AB count_sandstone : ℕ)
    (indices all_indices : List ℕ) : Except String (List Row) :=
  if overlap_AB > count_A ∨ overlap_AB > count_B then
    Except.error "Overlap (A∩B) cannot exceed either count_A or count_B."
  else if count_A > num_layers ∨ count_B > num_layers ∨ count_sandstone > num_layers then
    Except.error "Counts cannot exceed the total number of layers."
  else
    Except.ok (create_dataset_rows num_layers count_A count_B overlap_AB count_sandstone
      indices all_indices)

/-- Embedding of `calculate_probabilities` (`prob.py` lines 92–133).  The function first
assigns the derived boolean columns `HasA` and `HasB` into the DataFrame
of the caller (the `df[HasA]` column assignments), so the post-call state of that frame is
returned alongside the probability dict.  Counts are the sums of the two
boolean columns; the `total_layers == 0` branch returns all-zero values, and
`P(B|A)` is `pA_and_B / pA if pA != 0 else 0.0`. -/
def calculate_probabilities (df : List Row) : List Row × ProbResult :=
  let total_layers := df.length
  let df := df.map (fun r => { r with hasA := some (r.fossilA == "Yes") })
  let df := df.map (fun r => { r with hasB := some (r.fossilB == "Yes") })
  let A_count := df.countP (fun r => r.hasA.getD false)
  let B_count := df.countP (fun r => r.hasB.getD false)
  let AB_count := df.countP (fun r => r.hasA.getD false && r.hasB.getD false)
  if total_layers = 0 then
    (df, { pA := 0, pB := 0, pAB := 0, pAorB := 0, pBgA := 0 })
  else
    let pA : ℚ := (A_count : ℚ) / (total_layers : ℚ)
    let pB : ℚ := (B_count : ℚ) / (total_layers : ℚ)
    let pA_and_B : ℚ := (AB_count : ℚ) / (total_layers : ℚ)
    let pA_or_B : ℚ := pA + pB - pA_and_B
    let pB_given_A : ℚ := if pA ≠ 0 then pA_and_B / pA else 0
    (df, { pA := pA, pB := pB, pAB := pA_and_B, pAorB := pA_or_B, pBgA := pB_given_A })

/-- The count `count(hasA)` of a layer DataFrame: the number of rows with
`FossilA = "Yes"` (the quantity `A_count` sums in `calculate_probabilities`). -/
def countA (df : List Row) : ℕ := df.countP (fun r => r.fossilA == "Yes")

/-- The count `count(hasB)`: the number of rows with `FossilB = "Yes"`. -/
def countB (df : List Row) : ℕ := df.countP (fun r => r.fossilB == "Yes")

/-- The count `count(hasA and hasB)`: the number of rows carrying both fossils. -/
def countAB (df : List Row) : ℕ :=
  df.countP (fun r => r.fossilA == "Yes" && r.fossilB == "Yes")

/-- The column dict of the drill-hole DataFrame of `generate_random_drillholes`
(`axiom.py`): hole names, ore-grade labels and the two coordinate columns. -/
structure DrillDF where
  drillHole : List String
  gradeCategory : List String
  xCoord : List ℤ
  yCoord : List ℤ
deriving DecidableEq

/-- Embedding of `generate_random_drillholes` (`axiom.py` lines 8–46).  `shuffle` stands
for the in-place `np.random.shuffle` on the label list (the theorems
constrain it to return a permutation of its argument); `x_coords`/`y_coords`
stand for the random coordinate draws, one per hole.  The function performs
no validation of its own: the only failure is the pandas `ValueError` raised
when the length of the label column differs from the common length
`total_holes` (which happens exactly when the requested counts exceed
`total_holes`, since then no `"Unassigned"` padding restores the length). -/
def generate_random_drillholes (total_holes n_high n_medium n_low : ℕ)
    (shuffle : List String → List String) (x_coords y_coords : ℕ → ℤ) :
    Except String DrillDF :=
  let grade_labels := List.replicate n_high "High" ++ List.replicate n_medium "Medium"
    ++ List.replicate n_low "Low"
  let remainder := total_holes - grade_labels.length
  let grade_labels := if remainder > 0 then
    grade_labels ++ List.replicate remainder "Unassigned" else grade_labels
  let grade_labels := shuffle grade_labels
  if grade_labels.length = total_holes then
    Except.ok
      { drillHole := (List.range total_holes).map (fun i => "Hole_" ++ toString (i + 1)),
        gradeCategory := grade_labels,
        xCoord := (List.range total_holes).map x_coords,
        yCoord := (List.range total_holes).map y_coords }
  else
    Except.error "All arrays must be of the same length"

/-- Embedding of `medium_membership` from the fuzzy-sets script of `tutorial7.py`
(lines 108–121): the triangular Upland membership that is 0 at 395 m,
1 at the 400 m peak and 0 again at 405 m.  Starting from `mem = 0`, the
rising-edge mask `395 < elev ≤ 400` writes `(elev - 395) / (400 - 395)`,
the falling-edge mask `400 < elev < 405` writes `(405 - elev) / (405 - 400)`,
and the result is `np.clip(mem, 0, 1)`.  (The `medium_membership` of
`tutorial8.py` is the same shape with boundaries 380/395/410.) -/
def medium_membership (elev : ℚ) : ℚ :=
  let mem : ℚ := 0
  let mem := if 395 < elev ∧ elev ≤ 400 then (elev - 395) / (400 - 395) else mem
  let mem := if 400 < elev ∧ elev < 405 then (405 - elev) / (405 - 400) else mem
  min 1 (max 0 mem)

/-- Embedding of `np.argmax` specialised to the 3-vector `[a, b, c]`: the index of the
first occurrence of the maximum (ties keep the earlier index), obtained by
folding left and replacing the running best only on a strict increase. -/
def np_argmax3 (a b c : ℚ) : ℕ :=
  if b > a then (if c > b then 2 else 1) else (if c > a then 2 else 0)

/-- Embedding of `classify_elevation` (`tutorial8.py` lines 54–74) for one elevation
value: stack the three membership degrees, take `np.argmax`, and look the
index up in the label array `["Plain", "Upland", "Mountainous"]`. -/
def classify_elevation (low_mf med_mf high_mf : ℚ → ℚ) (elev : ℚ) : String :=
  let labels := ["Plain", "Upland", "Mountainous"]
  labels.getD (np_argmax3 (low_mf elev) (med_mf elev) (high_mf elev)) ""

/-- Beta-Bernoulli update of the Bayesian script in `tutorial7.py`
(lines 306–315): `successes` is the number of observations above the
threshold (`event_data.sum()` for the event `elev > threshold`),
`failures = len(event_data) - successes`, the posterior is
`(a_prior + successes, b_prior + failures)` and the posterior mean is
`a_post / (a_post + b_post)`.  The script instantiates `a_prior, b_prior =
1, 1` and `threshold = 400`. -/
def bayesian_update (a_prior b_prior : ℕ) (threshold : ℚ) (elev : List ℚ) : ℕ × ℕ × ℚ :=
  let successes := elev.countP (fun e => decide (threshold < e))
  let failures := elev.length - successes
  let a_post := a_prior + successes
  let b_post := b_prior + failures
  let posterior_mean : ℚ := (a_post : ℚ) / ((a_post : ℚ) + (b_post : ℚ))
  (a_post, b_post, posterior_mean)

/-! ### Counting helpers -/

/-- Inclusion-exclusion for `countP`: the or-count plus the and-count equals
the sum of the two counts. -/
lemma countP_or_and {α : Type} (p q : α → Bool) (l : List α) :
    l.countP (fun a => p a || q a) + l.countP (fun a => p a && q a)
      = l.countP p + l.countP q := by
  induction l with
  | nil => simp
  | cons a l ih =>
    simp only [List.countP_cons]
    cases hp : p a <;> cases hq : q a <;> simp [hp, hq] <;> omega

/-- Counting over `range n` the members of a duplicate-free list of values
below `n` gives the length of that list. -/
lemma countP_range_mem (n : ℕ) (S : List ℕ) (hnd : S.Nodup) (hlt : ∀ i ∈ S, i < n) :
    (List.range n).countP (fun i => decide (i ∈ S)) = S.length := by
  induction S with
  | nil => simp
  | cons a S ih =>
    have hna : a ∉ S := (List.nodup_cons.mp hnd).1
    have hndS : S.Nodup := (List.nodup_cons.mp hnd).2
    have hie := countP_or_and (fun i => decide (i = a)) (fun i => decide (i ∈ S)) (List.range n)
    have h1 : (List.range n).countP (fun i => decide (i ∈ a :: S))
        = (List.range n).countP (fun i => decide (i = a) || decide (i ∈ S)) := by
      apply List.countP_congr
      intro x _
      simp [List.mem_cons]
    have h2 : (List.range n).countP (fun i => decide (i = a) && decide (i ∈ S)) = 0 := by
      rw [List.countP_eq_zero]
      intro x _
      simp only [Bool.and_eq_true, decide_eq_true_eq, not_and]
      intro hx hxS
      exact hna (hx ▸ hxS)
    have h3 : (List.range n).countP (fun i => decide (i = a)) = 1 := by
      have ha : a ∈ List.range n := List.mem_range.mpr (hlt a (List.mem_cons_self a S))
      have hcount := List.count_eq_one_of_mem (List.nodup_range n) ha
      rw [List.count_eq_countP] at hcount
      rw [← hcount]
      apply List.countP_congr
      intro x _
      simp only [decide_eq_true_eq, beq_iff_eq]
    have h4 : (List.range n).countP (fun i => decide (i ∈ S)) = S.length :=
      ih hndS (fun i hi => hlt i (List.mem_cons_of_mem a hi))
    simp only [List.length_cons]
    omega

/-- The guarded take of `create_dataset`: `if k > 0 then l.take k else []`
is `l.take k` unconditionally. -/
lemma take_pos_eq {α : Type} (k : ℕ) (l : List α) :
    (if k > 0 then l.take k else []) = l.take k := by
  cases k <;> simp

/-- The guarded drop of `create_dataset`: `if k > 0 then l.drop k else l`
is `l.drop k` unconditionally. -/
lemma drop_pos_eq {α : Type} (k : ℕ) (l : List α) :
    (if k > 0 then l.drop k else l) = l.drop k := by
  cases k <;> simp

/-- The guarded `"Unassigned"` padding of `generate_random_drillholes`:
appending `replicate 0` is a no-op, so the guard can be dropped. -/
lemma pad_pos_eq (r : ℕ) (l : List String) :
    (if r > 0 then l ++ List.replicate r "Unassigned" else l)
      = l ++ List.replicate r "Unassigned" := by
  cases r <;> simp

/-! ### Characterising `create_dataset` -/

/-- Rewriting of `create_dataset_rows` with the slice guards removed: each flag column of
row `i` records membership of `i` in the corresponding index slice. -/
lemma create_dataset_rows_eq (n cA cB ov cs : ℕ) (idx aidx : List ℕ) :
    create_dataset_rows n cA cB ov cs idx aidx =
      (List.range n).map (fun i =>
        ({ layerID := toString (i + 1),
           fossilA := if i ∈ idx.take ov ∨ i ∈ (idx.drop ov).take (cA - ov)
             then "Yes" else "No",
           fossilB := if i ∈ idx.take ov ∨ i ∈ ((idx.drop ov).drop (cA - ov)).take (cB - ov)
             then "Yes" else "No",
           sandstone := if i ∈ aidx.take cs then "Yes" else "No" } : Row)) := by
  simp only [create_dataset_rows, take_pos_eq, drop_pos_eq]

/-- When the validation of `create_dataset` passes, the result is `ok` of
the built rows. -/
lemma create_dataset_eq_ok (n cA cB ov cs : ℕ) (idx aidx : List ℕ)
    (h1 : ov ≤ cA) (h2 : ov ≤ cB) (h3 : cA ≤ n) (h4 : cB ≤ n) (h5 : cs ≤ n) :
    create_dataset n cA cB ov cs idx aidx
      = Except.ok (create_dataset_rows n cA cB ov cs idx aidx) := by
  unfold create_dataset
  rw [if_neg (by omega), if_neg (by omega)]

/-- Exact fossil counts of the generated dataset, for any shuffle outcome:
with `overlap_AB ≤ count_A`, `overlap_AB ≤ count_B` and the effective
category counts fitting into `num_layers`, exactly `count_A` rows carry
fossil A, exactly `count_B` carry fossil B and exactly `overlap_AB` carry
both. -/
lemma create_dataset_rows_counts (n cA cB ov cs : ℕ) (idx aidx : List ℕ)
    (hp : idx.Perm (List.range n))
    (hA : ov ≤ cA) (hB : ov ≤ cB) (hsum : cA + (cB - ov) ≤ n) :
    countA (create_dataset_rows n cA cB ov cs idx aidx) = cA ∧
    countB (create_dataset_rows n cA cB ov cs idx aidx) = cB ∧
    countAB (create_dataset_rows n cA cB ov cs idx aidx) = ov := by
  have hnd : idx.Nodup := hp.nodup_iff.mpr (List.nodup_range n)
  have hmem : ∀ i ∈ idx, i < n := fun i hi => List.mem_range.mp (hp.mem_iff.mp hi)
  have hlen : idx.length = n := by simpa using hp.length_eq
  have hndT : (idx.take ov).Nodup := (List.take_sublist _ _).nodup hnd
  have hndR : (idx.drop ov).Nodup := (List.drop_sublist _ _).nodup hnd
  have hdisjTR : (idx.take ov).Disjoint (idx.drop ov) := by
    have h := hnd
    rw [← List.take_append_drop ov idx] at h
    exact (List.nodup_append.mp h).2.2
  have hndA1 : ((idx.drop ov).take (cA - ov)).Nodup := (List.take_sublist _ _).nodup hndR
  have hndRd : ((idx.drop ov).drop (cA - ov)).Nodup := (List.drop_sublist _ _).nodup hndR
  have hdisjA1Rd : ((idx.drop ov).take (cA - ov)).Disjoint ((idx.drop ov).drop (cA - ov)) := by
    have h := hndR
    rw [← List.take_append_drop (cA - ov) (idx.drop ov)] at h
    exact (List.nodup_append.mp h).2.2
  have hndB1 : (((idx.drop ov).drop (cA - ov)).take (cB - ov)).Nodup :=
    (List.take_sublist _ _).nodup hndRd
  have hsubB1 : (((idx.drop ov).drop (cA - ov)).take (cB - ov)) ⊆ (idx.drop ov).drop (cA - ov) :=
    (List.take_sublist _ _).subset
  have hsubB1R : (((idx.drop ov).drop (cA - ov)).take (cB - ov)) ⊆ idx.drop ov :=
    fun x hx => (List.drop_sublist _ _).subset (hsubB1 hx)
  have hdisjTA1 : (idx.take ov).Disjoint ((idx.drop ov).take (cA - ov)) :=
    List.disjoint_of_subset_right (List.take_sublist _ _).subset hdisjTR
  have hdisjTB1 : (idx.take ov).Disjoint (((idx.drop ov).drop (cA - ov)).take (cB - ov)) :=
    List.disjoint_of_subset_right hsubB1R hdisjTR
  have hdisjA1B1 :
      ((idx.drop ov).take (cA - ov)).Disjoint (((idx.drop ov).drop (cA - ov)).take (cB - ov)) :=
    List.disjoint_of_subset_right hsubB1 hdisjA1Rd
  have hlenT : (idx.take ov).length = ov :=
    List.length_take_of_le (by omega)
  have hlenR : (idx.drop ov).length = n - ov := by
    rw [List.length_drop, hlen]
  have hlenA1 : ((idx.drop ov).take (cA - ov)).length = cA - ov :=
    List.length_take_of_le (by omega)
  have hlenB1 : (((idx.drop ov).drop (cA - ov)).take (cB - ov)).length = cB - ov :=
    List.length_take_of_le (by rw [List.length_drop]; omega)
  refine ⟨?_, ?_, ?_⟩
  · unfold countA
    rw [create_dataset_rows_eq, List.countP_map]
    refine (List.countP_congr ?_).trans ((countP_range_mem n
      (idx.take ov ++ (idx.drop ov).take (cA - ov)) ?_ ?_).trans ?_)
    · intro i _
      by_cases h : i ∈ idx.take ov ∨ i ∈ (idx.drop ov).take (cA - ov) <;>
        simp [Function.comp, h, List.mem_append]
    · exact List.nodup_append.mpr ⟨hndT, hndA1, hdisjTA1⟩
    · intro i hi
      rcases List.mem_append.mp hi with h | h
      · exact hmem i (List.mem_of_mem_take h)
      · exact hmem i (List.mem_of_mem_drop (List.mem_of_mem_take h))
    · rw [List.length_append, hlenT, hlenA1]
      omega
  · unfold countB
    rw [create_dataset_rows_eq, List.countP_map]
    refine (List.countP_congr ?_).trans ((countP_range_mem n
      (idx.take ov ++ ((idx.drop ov).drop (cA - ov)).take (cB - ov)) ?_ ?_).trans ?_)
    · intro i _
      by_cases h : i ∈ idx.take ov ∨ i ∈ (idx.drop (ov + (cA - ov))).take (cB - ov) <;>
        simp [Function.comp, h, List.mem_append, List.drop_drop]
    · exact List.nodup_append.mpr ⟨hndT, hndB1, hdisjTB1⟩
    · intro i hi
      rcases List.mem_append.mp hi with h | h
      · exact hmem i (List.mem_of_mem_take h)
      · exact hmem i (List.mem_of_mem_drop (hsubB1R h))
    · rw [List.length_append, hlenT, hlenB1]
      omega
  · unfold countAB
    rw [create_dataset_rows_eq, List.countP_map]
    refine (List.countP_congr ?_).trans ((countP_range_mem n
      (idx.take ov) hndT ?_).trans ?_)
    · intro i _
      by_cases hiT : i ∈ idx.take ov
      · simp [Function.comp, hiT]
      · by_cases hiA : i ∈ (idx.drop ov).take (cA - ov)
        · have hiB : i ∉ (idx.drop (ov + (cA - ov))).take (cB - ov) := by
            rw [← List.drop_drop]
            exact fun hb => hdisjA1B1 hiA hb
          simp [Function.comp, hiT, hiA, hiB, List.drop_drop]
        · simp [Function.comp, hiT, hiA]
    · exact fun i hi => hmem i (List.mem_of_mem_take hi)
    · exact hlenT

/-- Row count of the generated dataset. -/
lemma create_dataset_rows_length (n cA cB ov cs : ℕ) (idx aidx : List ℕ) :
    (create_dataset_rows n cA cB ov cs idx aidx).length = n := by
  rw [create_dataset_rows_eq]; simp

/-! ### Characterising `calculate_probabilities` -/

/-- The post-call state of the input DataFrame: `calculate_probabilities`
writes the two derived boolean columns into the frame of the caller and leaves
the four original columns untouched. -/
lemma calculate_probabilities_fst (df : List Row) :
    (calculate_probabilities df).1 = df.map (fun r =>
      { r with hasA := some (r.fossilA == "Yes"),
               hasB := some (r.fossilB == "Yes") }) := by
  simp only [calculate_probabilities]
  split <;> (rw [List.map_map]; rfl)

/-- On a non-empty DataFrame, the returned probability dict in terms of the
three raw counts. -/
lemma calculate_probabilities_snd (df : List Row) (h : ¬df.length = 0) :
    (calculate_probabilities df).2 =
      { pA := (countA df : ℚ) / (df.length : ℚ),
        pB := (countB df : ℚ) / (df.length : ℚ),
        pAB := (countAB df : ℚ) / (df.length : ℚ),
        pAorB := (countA df : ℚ) / (df.length : ℚ) + (countB df : ℚ) / (df.length : ℚ)
          - (countAB df : ℚ) / (df.length : ℚ),
        pBgA := if (countA df : ℚ) / (df.length : ℚ) ≠ 0 then
            ((countAB df : ℚ) / (df.length : ℚ)) / ((countA df : ℚ) / (df.length : ℚ))
          else 0 } := by
  have hA : (df.map (fun r => { r with hasA := some (r.fossilA == "Yes") })
      |>.map (fun r => { r with hasB := some (r.fossilB == "Yes") })).countP
        (fun r => r.hasA.getD false) = countA df := by
    rw [List.countP_map, List.countP_map]; rfl
  have hB : (df.map (fun r => { r with hasA := some (r.fossilA == "Yes") })
      |>.map (fun r => { r with hasB := some (r.fossilB == "Yes") })).countP
        (fun r => r.hasB.getD false) = countB df := by
    rw [List.countP_map, List.countP_map]; rfl
  have hAB : (df.map (fun r => { r with hasA := some (r.fossilA == "Yes") })
      |>.map (fun r => { r with hasB := some (r.fossilB == "Yes") })).countP
        (fun r => r.hasA.getD false && r.hasB.getD false) = countAB df := by
    rw [List.countP_map, List.countP_map]; rfl
  simp only [calculate_probabilities]
  rw [if_neg h, hA, hB, hAB]

/-- Intersection count never exceeds the A count. -/
lemma countAB_le_countA (df : List Row) : countAB df ≤ countA df := by
  unfold countA countAB
  apply List.countP_mono_left
  intro r _ h
  exact ((Bool.and_eq_true _ _).mp h).1

/-- Intersection count never exceeds the B count. -/
lemma countAB_le_countB (df : List Row) : countAB df ≤ countB df := by
  unfold countB countAB
  apply List.countP_mono_left
  intro r _ h
  exact ((Bool.and_eq_true _ _).mp h).2

/-- Inclusion-exclusion for the fossil counts: `|A| + |B| = |A∪B| + |A∩B|`. -/
lemma countA_add_countB (df : List Row) :
    countA df + countB df
      = df.countP (fun r => r.fossilA == "Yes" || r.fossilB == "Yes") + countAB df := by
  have h := countP_or_and (fun r : Row => r.fossilA == "Yes")
    (fun r => r.fossilB == "Yes") df
  unfold countA countB countAB
  omega

/-- A count is at most the number of rows. -/
lemma countA_le_length (df : List Row) : countA df ≤ df.length :=
  List.countP_le_length _

/-- B count is at most the number of rows. -/
lemma countB_le_length (df : List Row) : countB df ≤ df.length :=
  List.countP_le_length _

/-! ### Claims -/

/-- Claim C1: for every outcome of the random shuffles, generating the
fossil dataset with `num_layers = 12`, `count_A = 6`, `count_B = 6`,
`overlap_AB = 3` via `create_dataset` and running
`calculate_probabilities` on the result yields exactly `P(A) = 0.5`,
`P(B) = 0.5`, `P(A∩B) = 0.25`, `P(A∪B) = 0.75` and `P(B|A) = 0.5`. -/
theorem c1_fossil_end_to_end (cs : ℕ) (indices all_indices : List ℕ)
    (hcs : cs ≤ 12) (hidx : indices.Perm (List.range 12)) :
    ∃ df, create_dataset 12 6 6 3 cs indices all_indices = Except.ok df ∧
      (calculate_probabilities df).2 =
        { pA := 1/2, pB := 1/2, pAB := 1/4, pAorB := 3/4, pBgA := 1/2 } := by
  refine ⟨_, create_dataset_eq_ok 12 6 6 3 cs indices all_indices (by omega) (by omega)
    (by omega) (by omega) hcs, ?_⟩
  obtain ⟨hA, hB, hAB⟩ := create_dataset_rows_counts 12 6 6 3 cs indices all_indices hidx
    (by omega) (by omega) (by omega)
  have hlen : (create_dataset_rows 12 6 6 3 cs indices all_indices).length = 12 :=
    create_dataset_rows_length 12 6 6 3 cs indices all_indices
  rw [calculate_probabilities_snd _ (by rw [hlen]; omega), hA, hB, hAB, hlen]
  norm_num [ProbResult.mk.injEq]

/-- Claim C1 witness: the identity shuffle with 5 sandstone layers. -/
theorem c1_fossil_end_to_end_witness :
    ∃ df, create_dataset 12 6 6 3 5 (List.range 12) (List.range 12) = Except.ok df ∧
      (calculate_probabilities df).2 =
        { pA := 1/2, pB := 1/2, pAB := 1/4, pAorB := 3/4, pBgA := 1/2 } :=
  c1_fossil_end_to_end 5 (List.range 12) (List.range 12) (by norm_num) (List.Perm.refl _)

/-- Claim C2: on every non-empty record set, the value returned for
`P(A∪B)` equals `P(A) + P(B) - P(A∩B)` exactly (the code computes it by
the addition rule from the other three returned measures), hence a
fortiori within the 1e-9 tolerance. -/
theorem c2_addition_rule (df : List Row) (h : df ≠ []) :
    (calculate_probabilities df).2.pAorB =
      (calculate_probabilities df).2.pA + (calculate_probabilities df).2.pB
        - (calculate_probabilities df).2.pAB := by
  rw [calculate_probabilities_snd df (fun hl => h (List.length_eq_zero.mp hl))]

/-- Claim C2 witness: a concrete one-row record set. -/
theorem c2_addition_rule_witness :
    ([(⟨"1", "Yes", "No", "No", none, none⟩ : Row)] : List Row)
        ≠ [] ∧
    (calculate_probabilities
        [(⟨"1", "Yes", "No", "No", none, none⟩ : Row)]).2.pAorB =
      (calculate_probabilities
        [(⟨"1", "Yes", "No", "No", none, none⟩ : Row)]).2.pA +
      (calculate_probabilities
        [(⟨"1", "Yes", "No", "No", none, none⟩ : Row)]).2.pB -
      (calculate_probabilities
        [(⟨"1", "Yes", "No", "No", none, none⟩ : Row)]).2.pAB :=
  ⟨by decide, c2_addition_rule _ (by decide)⟩

/-- Claim C3 counterexample: on a one-row record set whose row lacks
fossil A (`P(A) = 0`), the code returns the plain number `0.0` for
`P(B|A)` — not an "undefined" marker distinct from `0.0` — and on the
empty record set (`N = 0`) it returns `0` for every measure, again with
no distinct marker. -/
theorem c3_counterexample :
    (calculate_probabilities [(⟨"1", "No", "Yes", "No", none, none⟩ : Row)]).2.pBgA = 0 ∧
    (calculate_probabilities []).2
      = { pA := 0, pB := 0, pAB := 0, pAorB := 0, pBgA := 0 } := by
  constructor
  · rw [calculate_probabilities_snd _ (by decide)]
    have h0 : countA [(⟨"1", "No", "Yes", "No", none, none⟩ : Row)] = 0 := by decide
    simp [h0]
  · decide

/-- Claim C3 amended: whenever no row has fossil A set (`P(A) = 0`),
`calculate_probabilities` returns the number `0.0` for `P(B|A)` (it does
not raise a division error, and it has no "undefined" marker), and on the
empty record set it returns `0` for all five measures rather than raising. -/
theorem c3_undefined_handling (df : List Row) (h : countA df = 0) :
    (calculate_probabilities df).2.pBgA = 0 ∧
    (calculate_probabilities []).2
      = { pA := 0, pB := 0, pAB := 0, pAorB := 0, pBgA := 0 } := by
  refine ⟨?_, by decide⟩
  by_cases hlen : df.length = 0
  · simp only [calculate_probabilities, if_pos hlen]
  · rw [calculate_probabilities_snd df hlen]
    simp [h]

/-- Claim C3 amended witness: a concrete record set with no fossil A. -/
theorem c3_undefined_handling_witness :
    countA [(⟨"1", "No", "Yes", "No", none, none⟩ : Row)] = 0 ∧
    ((calculate_probabilities [(⟨"1", "No", "Yes", "No", none, none⟩ : Row)]).2.pBgA = 0 ∧
      (calculate_probabilities []).2
        = { pA := 0, pB := 0, pAB := 0, pAorB := 0, pBgA := 0 }) :=
  ⟨by decide, c3_undefined_handling _ (by decide)⟩

/-- Claim C4: for every valid configuration (category counts summing to at
most the total) and every shuffle outcome, the categorical generators
return exactly `total` rows with exactly the requested count per category
and the remainder "Unassigned"; the fossil variant yields exactly
`count_A` rows with fossil A, `count_B` with fossil B and `overlap_AB`
with both.  In particular `total = 12` with High:6, Medium:2, Low:1 gives
6/2/1 and 3 "Unassigned". -/
theorem c4_category_counts :
    (∀ (total nh nm nl : ℕ) (shuffle : List String → List String) (xc yc : ℕ → ℤ),
      (∀ l, (shuffle l).Perm l) → nh + nm + nl ≤ total →
      ∃ d, generate_random_drillholes total nh nm nl shuffle xc yc = Except.ok d ∧
        d.gradeCategory.length = total ∧
        d.gradeCategory.count "High" = nh ∧
        d.gradeCategory.count "Medium" = nm ∧
        d.gradeCategory.count "Low" = nl ∧
        d.gradeCategory.count "Unassigned" = total - (nh + nm + nl)) ∧
    (∀ (n cA cB ov cs : ℕ) (idx aidx : List ℕ),
      idx.Perm (List.range n) → ov ≤ cA → ov ≤ cB → cA + (cB - ov) ≤ n → cs ≤ n →
      ∃ df, create_dataset n cA cB ov cs idx aidx = Except.ok df ∧
        df.length = n ∧ countA df = cA ∧ countB df = cB ∧ countAB df = ov) := by
  constructor
  · intro total nh nm nl shuffle xc yc hsh hle
    simp only [generate_random_drillholes, pad_pos_eq]
    have hplen : (List.replicate nh "High" ++ List.replicate nm "Medium"
        ++ List.replicate nl "Low"
        ++ List.replicate (total - (List.replicate nh "High" ++ List.replicate nm "Medium"
            ++ List.replicate nl "Low").length) "Unassigned").length = total := by
      simp [List.length_append]
      omega
    have hshlen : (shuffle (List.replicate nh "High" ++ List.replicate nm "Medium"
        ++ List.replicate nl "Low"
        ++ List.replicate (total - (List.replicate nh "High" ++ List.replicate nm "Medium"
            ++ List.replicate nl "Low").length) "Unassigned")).length = total :=
      ((hsh _).length_eq).trans hplen
    rw [if_pos hshlen]
    refine ⟨_, rfl, hshlen, ?_, ?_, ?_, ?_⟩ <;>
      rw [(hsh _).count_eq] <;>
      simp [List.count_append, List.count_replicate] <;>
      omega
  · intro n cA cB ov cs idx aidx hp h1 h2 h3 h4
    obtain ⟨hA, hB, hAB⟩ := create_dataset_rows_counts n cA cB ov cs idx aidx hp h1 h2 h3
    exact ⟨_, create_dataset_eq_ok n cA cB ov cs idx aidx h1 h2 (by omega) (by omega) h4,
      create_dataset_rows_length n cA cB ov cs idx aidx, hA, hB, hAB⟩

/-- Claim C4 witness: the example of the spec, 12/6/2/1 drill holes under the
identity shuffle, and the 12/6/6/3 fossil dataset. -/
theorem c4_category_counts_witness :
    (∃ d, generate_random_drillholes 12 6 2 1 id (fun _ => 0) (fun _ => 0) = Except.ok d ∧
      d.gradeCategory.length = 12 ∧
      d.gradeCategory.count "High" = 6 ∧
      d.gradeCategory.count "Medium" = 2 ∧
      d.gradeCategory.count "Low" = 1 ∧
      d.gradeCategory.count "Unassigned" = 12 - (6 + 2 + 1)) ∧
    (∃ df, create_dataset 12 6 6 3 5 (List.range 12) (List.range 12) = Except.ok df ∧
      df.length = 12 ∧ countA df = 6 ∧ countB df = 6 ∧ countAB df = 3) :=
  ⟨c4_category_counts.1 12 6 2 1 id (fun _ => 0) (fun _ => 0)
      (fun l => List.Perm.refl l) (by norm_num),
   c4_category_counts.2 12 6 6 3 5 (List.range 12) (List.range 12) (List.Perm.refl _)
      (by norm_num) (by norm_num) (by norm_num) (by norm_num)⟩

/-- Claim C5 counterexample: the configuration `num_layers = 2`,
`count_A = 2`, `count_B = 2`, `overlap_AB = 0` has effective category
counts `(count_A - overlap) + (count_B - overlap) + overlap = 4 > 2`, an
invalid configuration by the claim, yet `create_dataset` raises nothing —
it returns normally (for the shuffle outcome `[0, 1]`, a permutation of
`range 2`) and silently produces a dataset with 0 rows carrying fossil B
instead of the requested 2. -/
theorem c5_counterexample :
    ([0, 1] : List ℕ).Perm (List.range 2) ∧
    (2 - 0) + (2 - 0) + 0 > 2 ∧
    (create_dataset 2 2 2 0 0 [0, 1] [0, 1]).map countB = Except.ok 0 := by
  refine ⟨by decide, by decide, ?_⟩
  rfl

/-- Claim C5 amended: `create_dataset` fails (with `ValueError`, the only
error kind in the source) exactly when `overlap_AB` exceeds `count_A` or
`count_B`, or one of `count_A`, `count_B`, `count_sandstone` exceeds
`num_layers`; it does not reject configurations whose summed category
counts exceed the total.  `generate_random_drillholes` has no validation
of its own and fails (via the pandas column-length mismatch) exactly when
`n_high + n_medium + n_low` exceeds `total_holes`. -/
theorem c5_error_conditions :
    (∀ (n cA cB ov cs : ℕ) (idx aidx : List ℕ),
      (∃ e, create_dataset n cA cB ov cs idx aidx = Except.error e) ↔
        (ov > cA ∨ ov > cB ∨ cA > n ∨ cB > n ∨ cs > n)) ∧
    (∀ (total nh nm nl : ℕ) (shuffle : List String → List String) (xc yc : ℕ → ℤ),
      (∀ l, (shuffle l).Perm l) →
      ((∃ e, generate_random_drillholes total nh nm nl shuffle xc yc = Except.error e) ↔
        nh + nm + nl > total)) := by
  constructor
  · intro n cA cB ov cs idx aidx
    unfold create_dataset
    split_ifs with hc1 hc2
    · simp only [Except.error.injEq, exists_eq']
      constructor
      · intro
        omega
      · intro
        trivial
    · simp only [Except.error.injEq, exists_eq']
      constructor
      · intro
        omega
      · intro
        trivial
    · constructor
      · rintro ⟨e, he⟩
        cases he
      · intro hP
        exact absurd hP (by omega)
  · intro total nh nm nl shuffle xc yc hsh
    simp only [generate_random_drillholes, pad_pos_eq]
    have hlen : (shuffle (List.replicate nh "High" ++ List.replicate nm "Medium"
        ++ List.replicate nl "Low"
        ++ List.replicate (total - (List.replicate nh "High" ++ List.replicate nm "Medium"
            ++ List.replicate nl "Low").length) "Unassigned")).length
        = nh + nm + nl + (total - (nh + nm + nl)) := by
      rw [(hsh _).length_eq]
      simp [List.length_append]
      omega
    by_cases h : nh + nm + nl > total
    · rw [if_neg (by omega)]
      simp only [Except.error.injEq, exists_eq']
      constructor
      · intro
        exact h
      · intro
        trivial
    · rw [if_pos (by omega)]
      constructor
      · rintro ⟨e, he⟩
        cases he
      · intro hP
        exact absurd hP (by omega)

/-- Claim C5 amended witness: both characterisations instantiated at
concrete configurations. -/
theorem c5_error_conditions_witness :
    ((∃ e, create_dataset 1 2 0 0 0 [0] [0] = Except.error e)
        ↔ ((0 : ℕ) > 2 ∨ (0 : ℕ) > 0 ∨ 2 > 1 ∨ (0 : ℕ) > 1 ∨ (0 : ℕ) > 1)) ∧
    ((∃ e, generate_random_drillholes 2 1 1 1 id (fun _ => 0) (fun _ => 0) = Except.error e)
        ↔ 1 + 1 + 1 > 2) :=
  ⟨c5_error_conditions.1 1 2 0 0 0 [0] [0],
   c5_error_conditions.2 2 1 1 1 id (fun _ => 0) (fun _ => 0) (fun l => List.Perm.refl l)⟩

/-- The clip to [0, 1] is non-negative. -/
lemma clip_nonneg (v : ℚ) : 0 ≤ min 1 (max 0 v) :=
  le_min (by norm_num) (le_max_left 0 v)

/-- The clip to [0, 1] is at most one. -/
lemma clip_le_one (v : ℚ) : min 1 (max 0 v) ≤ 1 := min_le_left _ _

/-- The clip to [0, 1] is monotone. -/
lemma clip_mono {a b : ℚ} (h : a ≤ b) : min 1 (max 0 a) ≤ min 1 (max 0 b) :=
  min_le_min le_rfl (max_le_max le_rfl h)

/-- Unfolding of `medium_membership`: the second mask write wins where it
applies, then the first, else the initial zero; finally the clip. -/
lemma medium_membership_def (elev : ℚ) :
    medium_membership elev
      = min 1 (max 0 (if 400 < elev ∧ elev < 405 then (405 - elev) / (405 - 400)
          else if 395 < elev ∧ elev ≤ 400 then (elev - 395) / (400 - 395) else 0)) := rfl

/-- Claim C6: every measure `calculate_probabilities` returns — P(A), P(B),
P(A∩B), P(A∪B), P(B|A) — lies in the closed interval [0, 1] (the source
has no separate "undefined" marker; every returned value is a number, and
it is always within bounds). -/
theorem c6_probability_bounds (df : List Row) :
    (0 ≤ (calculate_probabilities df).2.pA ∧ (calculate_probabilities df).2.pA ≤ 1) ∧
    (0 ≤ (calculate_probabilities df).2.pB ∧ (calculate_probabilities df).2.pB ≤ 1) ∧
    (0 ≤ (calculate_probabilities df).2.pAB ∧ (calculate_probabilities df).2.pAB ≤ 1) ∧
    (0 ≤ (calculate_probabilities df).2.pAorB ∧ (calculate_probabilities df).2.pAorB ≤ 1) ∧
    (0 ≤ (calculate_probabilities df).2.pBgA ∧ (calculate_probabilities df).2.pBgA ≤ 1) := by
  by_cases h : df.length = 0
  · simp only [calculate_probabilities, if_pos h]
    norm_num
  · rw [calculate_probabilities_snd df h]
    have hN : (0 : ℚ) < (df.length : ℚ) := by
      exact_mod_cast Nat.pos_of_ne_zero h
    have hAq : (countA df : ℚ) ≤ (df.length : ℚ) := by exact_mod_cast countA_le_length df
    have hBq : (countB df : ℚ) ≤ (df.length : ℚ) := by exact_mod_cast countB_le_length df
    have hABAq : (countAB df : ℚ) ≤ (countA df : ℚ) := by exact_mod_cast countAB_le_countA df
    have hABq : (countAB df : ℚ) ≤ (df.length : ℚ) := le_trans hABAq hAq
    have hsum : (countA df : ℚ) + (countB df : ℚ) - (countAB df : ℚ) ≤ (df.length : ℚ) := by
      have h1 : (countA df : ℚ) + (countB df : ℚ)
          = (df.countP (fun r => r.fossilA == "Yes" || r.fossilB == "Yes") : ℚ)
            + (countAB df : ℚ) := by exact_mod_cast countA_add_countB df
      have h2n : df.countP (fun r => r.fossilA == "Yes" || r.fossilB == "Yes")
          ≤ df.length := List.countP_le_length _
      have h2 : (df.countP (fun r => r.fossilA == "Yes" || r.fossilB == "Yes") : ℚ)
          ≤ (df.length : ℚ) := by exact_mod_cast h2n
      linarith
    have hsum0 : 0 ≤ (countA df : ℚ) + (countB df : ℚ) - (countAB df : ℚ) := by
      have hBnn : (0 : ℚ) ≤ (countB df : ℚ) := Nat.cast_nonneg _
      linarith
    have hre : (countA df : ℚ) / (df.length : ℚ) + (countB df : ℚ) / (df.length : ℚ)
        - (countAB df : ℚ) / (df.length : ℚ)
        = ((countA df : ℚ) + (countB df : ℚ) - (countAB df : ℚ)) / (df.length : ℚ) := by
      ring
    refine ⟨⟨?_, ?_⟩, ⟨?_, ?_⟩, ⟨?_, ?_⟩, ⟨?_, ?_⟩, ⟨?_, ?_⟩⟩
    · exact div_nonneg (Nat.cast_nonneg _) (le_of_lt hN)
    · exact (div_le_one hN).mpr hAq
    · exact div_nonneg (Nat.cast_nonneg _) (le_of_lt hN)
    · exact (div_le_one hN).mpr hBq
    · exact div_nonneg (Nat.cast_nonneg _) (le_of_lt hN)
    · exact (div_le_one hN).mpr hABq
    · show 0 ≤ (countA df : ℚ) / (df.length : ℚ) + (countB df : ℚ) / (df.length : ℚ)
        - (countAB df : ℚ) / (df.length : ℚ)
      rw [hre]
      exact div_nonneg hsum0 (le_of_lt hN)
    · show (countA df : ℚ) / (df.length : ℚ) + (countB df : ℚ) / (df.length : ℚ)
        - (countAB df : ℚ) / (df.length : ℚ) ≤ 1
      rw [hre]
      exact (div_le_one hN).mpr hsum
    · show 0 ≤ if (countA df : ℚ) / (df.length : ℚ) ≠ 0 then
          ((countAB df : ℚ) / (df.length : ℚ)) / ((countA df : ℚ) / (df.length : ℚ)) else 0
      split_ifs with hc
      · exact div_nonneg (div_nonneg (Nat.cast_nonneg _) (le_of_lt hN))
          (div_nonneg (Nat.cast_nonneg _) (le_of_lt hN))
      · exact le_refl 0
    · show (if (countA df : ℚ) / (df.length : ℚ) ≠ 0 then
          ((countAB df : ℚ) / (df.length : ℚ)) / ((countA df : ℚ) / (df.length : ℚ))
          else 0) ≤ 1
      split_ifs with hc
      · have hpA_pos : 0 < (countA df : ℚ) / (df.length : ℚ) :=
          lt_of_le_of_ne (div_nonneg (Nat.cast_nonneg _) (le_of_lt hN)) (Ne.symm hc)
        exact (div_le_one hpA_pos).mpr ((div_le_div_iff_of_pos_right hN).mpr hABAq)
      · norm_num

/-- Claim C7: the triangular Upland membership with boundaries
`a = 395`, `peak = 400`, `b = 405` satisfies `membership 395 = 0`,
`membership 400 = 1`, `membership 405 = 0`; every returned degree lies in
[0, 1]; and the function is monotonically increasing on [395, 400] and
monotonically decreasing on [400, 405]. -/
theorem c7_triangular_membership :
    medium_membership 395 = 0 ∧ medium_membership 400 = 1 ∧ medium_membership 405 = 0 ∧
    (∀ x : ℚ, 0 ≤ medium_membership x ∧ medium_membership x ≤ 1) ∧
    (∀ x y : ℚ, 395 ≤ x → x ≤ y → y ≤ 400 →
      medium_membership x ≤ medium_membership y) ∧
    (∀ x y : ℚ, 400 ≤ x → x ≤ y → y ≤ 405 →
      medium_membership y ≤ medium_membership x) := by
  refine ⟨by norm_num [medium_membership], by norm_num [medium_membership],
    by norm_num [medium_membership], fun x => ⟨clip_nonneg _, clip_le_one _⟩, ?_, ?_⟩
  · intro x y hx hxy hy
    rw [medium_membership_def, medium_membership_def]
    apply clip_mono
    rw [if_neg (show ¬(400 < x ∧ x < 405) from fun hc => absurd hc.1 (by linarith)),
        if_neg (show ¬(400 < y ∧ y < 405) from fun hc => absurd hc.1 (by linarith))]
    by_cases hx1 : 395 < x ∧ x ≤ 400
    · rw [if_pos hx1, if_pos (show 395 < y ∧ y ≤ 400 from ⟨by linarith [hx1.1], hy⟩)]
      have h5 : ((400 : ℚ) - 395) = 5 := by norm_num
      rw [h5]
      linarith
    · rw [if_neg hx1]
      by_cases hy1 : 395 < y ∧ y ≤ 400
      · rw [if_pos hy1]
        have h5 : ((400 : ℚ) - 395) = 5 := by norm_num
        rw [h5]
        linarith [hy1.1]
      · rw [if_neg hy1]
  · intro x y hx hxy hy
    rw [medium_membership_def, medium_membership_def]
    by_cases hx4 : 400 < x
    · by_cases hy5 : y < 405
      · apply clip_mono
        rw [if_pos (show 400 < y ∧ y < 405 from ⟨by linarith, hy5⟩),
            if_pos (show 400 < x ∧ x < 405 from ⟨hx4, by linarith⟩)]
        have h5 : ((405 : ℚ) - 400) = 5 := by norm_num
        rw [h5]
        linarith
      · have hy5' : y = 405 := le_antisymm hy (not_lt.mp hy5)
        subst hy5'
        rw [if_neg (show ¬((400 : ℚ) < 405 ∧ (405 : ℚ) < 405) by norm_num),
            if_neg (show ¬((395 : ℚ) < 405 ∧ (405 : ℚ) ≤ 400) by norm_num)]
        exact le_trans (by norm_num) (clip_nonneg _)
    · have hx4' : x = 400 := le_antisymm (not_lt.mp hx4) hx
      subst hx4'
      rw [if_neg (show ¬((400 : ℚ) < 400 ∧ (400 : ℚ) < 405) by norm_num),
          if_pos (show (395 : ℚ) < 400 ∧ (400 : ℚ) ≤ 400 by norm_num)]
      have h1 : ((400 : ℚ) - 395) / (400 - 395) = 1 := by norm_num
      rw [h1]
      have h2 : min (1 : ℚ) (max 0 1) = 1 := by norm_num
      rw [h2]
      exact clip_le_one _

/-- Claim C8: hard fuzzy classification returns the label of maximal
membership degree among the declared categories (Plain, Upland,
Mountainous, in declared order low/medium/high), and on exact ties the
first-declared of the tied categories wins: "Upland" is only returned when
it strictly beats "Plain", and "Mountainous" only when it strictly beats
both earlier categories. -/
theorem c8_classify_max (fl fm fh : ℚ → ℚ) (v : ℚ) :
    (classify_elevation fl fm fh v = "Plain" ∧ fm v ≤ fl v ∧ fh v ≤ fl v) ∨
    (classify_elevation fl fm fh v = "Upland" ∧ fl v < fm v ∧ fh v ≤ fm v) ∨
    (classify_elevation fl fm fh v = "Mountainous" ∧ fl v < fh v ∧ fm v < fh v) := by
  unfold classify_elevation np_argmax3
  by_cases h1 : fm v > fl v
  · by_cases h2 : fh v > fm v
    · right; right
      rw [if_pos h1, if_pos h2]
      exact ⟨rfl, by linarith, h2⟩
    · right; left
      rw [if_pos h1, if_neg h2]
      exact ⟨rfl, h1, not_lt.mp h2⟩
  · by_cases h3 : fh v > fl v
    · right; right
      rw [if_neg h1, if_pos h3]
      exact ⟨rfl, h3, by linarith [not_lt.mp h1]⟩
    · left
      rw [if_neg h1, if_neg h3]
      exact ⟨rfl, not_lt.mp h1, not_lt.mp h3⟩

/-- Claim C9: the Beta-Bernoulli update returns the posterior
`(α, β) = (α₀ + successes, β₀ + failures)` — where `successes` counts the
observations above the threshold and `failures` the rest — with
`posterior_mean = α / (α + β)` and `α ≥ α₀`, `β ≥ β₀`; in particular the
non-informative prior `(1, 1)` with zero observations stays `(1, 1)` with
posterior mean `1/2`. -/
theorem c9_beta_bernoulli_update :
    (∀ (a_prior b_prior : ℕ) (t : ℚ) (elev : List ℚ),
      (bayesian_update a_prior b_prior t elev).1
          = a_prior + elev.countP (fun e => decide (t < e)) ∧
      (bayesian_update a_prior b_prior t elev).2.1
          = b_prior + elev.countP (fun e => decide (¬ t < e)) ∧
      (bayesian_update a_prior b_prior t elev).2.2
          = ((bayesian_update a_prior b_prior t elev).1 : ℚ)
            / (((bayesian_update a_prior b_prior t elev).1 : ℚ)
              + ((bayesian_update a_prior b_prior t elev).2.1 : ℚ)) ∧
      a_prior ≤ (bayesian_update a_prior b_prior t elev).1 ∧
      b_prior ≤ (bayesian_update a_prior b_prior t elev).2.1) ∧
    bayesian_update 1 1 400 [] = (1, 1, 1/2) := by
  constructor
  · intro a b t elev
    have hsplit := List.length_eq_countP_add_countP (fun e => decide (t < e)) elev
    have hc : elev.countP (fun e => decide (¬(decide (t < e)) = true))
        = elev.countP (fun e => decide (¬ t < e)) := by
      apply List.countP_congr
      intro e _
      simp
    refine ⟨rfl, ?_, rfl, ?_, ?_⟩
    · show b + (elev.length - elev.countP (fun e => decide (t < e)))
        = b + elev.countP (fun e => decide (¬ t < e))
      omega
    · exact Nat.le_add_right a _
    · exact Nat.le_add_right b _
  · norm_num [bayesian_update, Prod.ext_iff]

/-- Claim C10 counterexample: `calculate_probabilities` does not leave its
input unchanged — after the call, the one-row frame of the caller has gained the
`HasA`/`HasB` columns and no longer equals its pre-call value. -/
theorem c10_counterexample :
    (calculate_probabilities [(⟨"1", "Yes", "No", "No", none, none⟩ : Row)]).1
      ≠ [(⟨"1", "Yes", "No", "No", none, none⟩ : Row)] := by
  decide

/-- Claim C10 amended: `calculate_probabilities` mutates its input only by
writing the derived `HasA` and `HasB` columns into it; the four original
columns of every row and the row order are preserved exactly, and the
probability mapping it returns is a freshly constructed record. -/
theorem c10_frame_effect (df : List Row) :
    (calculate_probabilities df).1 = df.map (fun r =>
      { r with hasA := some (r.fossilA == "Yes"),
               hasB := some (r.fossilB == "Yes") }) ∧
    ((calculate_probabilities df).1).map
        (fun r => (r.layerID, r.fossilA, r.fossilB, r.sandstone))
      = df.map (fun r => (r.layerID, r.fossilA, r.fossilB, r.sandstone)) := by
  refine ⟨calculate_probabilities_fst df, ?_⟩
  rw [calculate_probabilities_fst df, List.map_map]
  rfl

/-- Claim C7 witness: the monotonicity and bounds instantiated at concrete
elevations. -/
theorem c7_triangular_membership_witness :
    ((395 : ℚ) ≤ 396 ∧ (396 : ℚ) ≤ 398 ∧ (398 : ℚ) ≤ 400 ∧
      medium_membership 396 ≤ medium_membership 398) ∧
    ((400 : ℚ) ≤ 401 ∧ (401 : ℚ) ≤ 403 ∧ (403 : ℚ) ≤ 405 ∧
      medium_membership 403 ≤ medium_membership 401) ∧
    (0 ≤ medium_membership 397 ∧ medium_membership 397 ≤ 1) :=
  ⟨⟨by norm_num, by norm_num, by norm_num,
      c7_triangular_membership.2.2.2.2.1 396 398 (by norm_num) (by norm_num) (by norm_num)⟩,
   ⟨by norm_num, by norm_num, by norm_num,
      c7_triangular_membership.2.2.2.2.2 401 403 (by norm_num) (by norm_num) (by norm_num)⟩,
   c7_triangular_membership.2.2.2.1 397⟩
